import Mathlib

/-!
Verification of the copy action plugin (`lib/ansible/runner/action_plugins/copy.py`).

The plugin's `ActionModule.run` and `ActionModule._get_diff_data` are shallowly
embedded as pure Lean functions.  Every interaction with the outside world
(local filesystem, remote connection, delegated modules) is recorded as an
`Event` in a trace, and the data those interactions would return is supplied by
an `Env` oracle, so the embedding is a deterministic function
`Runner → Request → Env → trace × outcome`.
-/

namespace CopyPlugin

/-- One observable side effect of the plugin.  `mkstemp`/`removeTemp` are the
local ephemeral temp-file operations (`tempfile.mkstemp` / `os.remove`);
`probe` is `runner._remote_md5`; `putFile` is `conn.put_file`; `chmod` is the
`runner._low_level_exec_command` permission fixup; `execMod name args persist`
is `runner._execute_module` (with its `persist_files` flag); the `local*`
events record opening/reading/statting the local source file inside
`_get_diff_data`. -/
inductive Event where
  | mkstemp (path : String)
  | removeTemp (path : String)
  | probe (path : String)
  | putFile (src dst : String)
  | chmod (cmd : String)
  | execMod (name args : String) (persist : Bool)
  | openLocal (path : String)
  | readLocal8k (path : String)
  | statLocal (path : String)
  | readLocalFull (path : String)
  deriving DecidableEq, Repr

/-- The portion of a delegated module's `ReturnData.result` dict that the
claims observe (`failed`, `changed`, `msg`). -/
structure ModuleResult where
  failed : Bool := false
  changed : Bool := false
  msg : Option String := none
  deriving DecidableEq, Repr

/-- The `diff` dict built by `_get_diff_data`.  Absent keys are `none`/`false`;
the empty dict `\x7b\x7d` is the default value. -/
structure DiffData where
  before : Option String := none
  before_header : Option String := none
  after : Option String := none
  after_header : Option String := none
  dst_binary : Bool := false
  src_binary : Bool := false
  dst_larger : Option Nat := none
  src_larger : Option Nat := none
  deriving DecidableEq, Repr

/-- Result of the `file ... diff_peek=1` remote module call: its
`is_successful()` status and the `state`, `appears_binary` and `size` fields
read from `peek_result.result`. -/
structure PeekResult where
  successful : Bool
  state : String
  appears_binary : Bool
  size : Nat
  deriving DecidableEq, Repr

/-- Result of the `slurp` remote module call: the optional `content` key and
the `encoding` field of `dest_result.result`. -/
structure SlurpResult where
  content : Option String
  encoding : String
  deriving DecidableEq, Repr

/-- Oracle for everything outside the plugin: the local filesystem, the
templating utilities, and each remote collaborator.  `mkstempName` is the path
`tempfile.mkstemp` would create; `writeOk` says whether `f.write(content)`
succeeds; `hash c` is the md5 digest of content `c` (so the md5 of the freshly
written temp file is `hash content`); `md5 p` is `utils.md5 p` for an ordinary
path (`none` when the path does not exist); `template` composes
`utils.template` with `utils.path_dwim`; `remoteMd5 p` is
`runner._remote_md5` on path `p` (the digest, or the directory sentinel
`"3"`). -/
structure Env where
  mkstempName : String
  writeOk : Bool
  hash : String → String
  md5 : String → Option String
  template : String → String
  pathExists : String → Bool
  remoteMd5 : String → String
  peekResult : String → PeekResult
  slurpResult : String → SlurpResult
  decode64 : String → String
  localRead8k : String → String
  localSize : String → Nat
  localReadFull : String → String
  applyModule : String → String → ModuleResult

/-- The runner configuration flags read by the plugin (`runner.diff`,
`runner.check`, `runner.sudo`, `runner.sudo_user`; the `check` attribute is
spelled `check_mode` and `sudo` is spelled `sudo_enabled` because both words
are reserved in Lean/Mathlib). -/
structure Runner where
  diff : Bool
  check_mode : Bool
  sudo_enabled : Bool
  sudo_user : String
  deriving DecidableEq, Repr

/-- The plugin's parsed options: `src`, `content`, `dest` from the module
arguments, and the `first_available_file` list when it is present in the
inject vars. -/
structure Request where
  src : Option String
  content : Option String
  dest : Option String
  faf : Option (List String)
  deriving DecidableEq, Repr

/-- How one invocation of `run` ends: a `ReturnData` (its result dict and the
`diff` attached to it, `none` when the `diff=` keyword was not passed), or a
Python exception escaping the call. -/
inductive Outcome where
  | result (res : ModuleResult) (diff : Option DiffData)
  | exn (msg : String)
  deriving DecidableEq, Repr

/-- Trace and outcome of one invocation. -/
structure RunOut where
  events : List Event
  outcome : Outcome
  deriving DecidableEq, Repr

/-- `utils.MAX_FILE_SIZE_FOR_DIFF`.  Modelled from the spec: the constant
lives in `lib/ansible/utils`, outside the provided source; the spec only calls
it "a fixed size ceiling", so its concrete value (1 MiB in the real utils
module) is irrelevant to every claim. -/
def MAX_FILE_SIZE_FOR_DIFF : Nat := 1048576

/-- `str.endswith` — expressed over the character lists so that it evaluates
by `decide` (`String.endsWith` itself does not reduce in the kernel). -/
def strEndsWith (s post : String) : Bool :=
  post.data.isSuffixOf s.data

/-- `str.startswith`, over the character lists for the same reason. -/
def strStartsWith (s pre : String) : Bool :=
  pre.data.isPrefixOf s.data

/-- `os.path.basename`: the suffix after the last `/` (empty for a path that
ends in `/`). -/
def basename (p : String) : String :=
  String.mk (p.data.foldl (fun acc c => if c = '/' then [] else acc ++ [c]) [])

/-- `os.path.join a b` for POSIX paths: an absolute `b` wins; otherwise a `/`
separator is inserted unless `a` is empty or already ends in `/`. -/
def pathJoin (a b : String) : String :=
  if strStartsWith b "/" then b
  else if a = "" ∨ strEndsWith a "/" then a ++ b
  else a ++ "/" ++ b

/-- The two argument-validation checks at the top of `run`; `some msg` is the
failure message of the `ReturnData` returned early. -/
def validateMsg (req : Request) : Option String :=
  if (req.src = none ∧ req.content = none ∧ req.faf = none) ∨ req.dest = none then
    some "src (or content) and dest are required"
  else if (req.src ≠ none ∨ req.faf ≠ none) ∧ req.content ≠ none then
    some "src and content are mutually exclusive"
  else none

/-- Result of resolving the local source: an early failing `ReturnData`, or
the resolved local path together with the temp-file path when inline content
was materialized (`tmp_content`). -/
inductive SrcRes where
  | fail (events : List Event) (msg : String)
  | ok (events : List Event) (source : String) (temp : Option String)
  deriving DecidableEq, Repr

/-- The source-resolution block of `run`: `first_available_file` lookup, or
materialization of inline `content` via `tempfile.mkstemp`, or
templating/dwim of `src`.  The final catch-all arm is unreachable once
`validateMsg` has passed (some source description must exist). -/
def resolveSource (req : Request) (env : Env) : SrcRes :=
  match req.faf with
  | some fns =>
    match fns.find? (fun fn => env.pathExists (env.template fn)) with
    | some fn => .ok [] (env.template fn) none
    | none => .fail [] "could not find src in first_available_file list"
  | none =>
    match req.content with
    | some _ =>
      if env.writeOk then
        .ok [.mkstemp env.mkstempName] env.mkstempName (some env.mkstempName)
      else
        .fail [.mkstemp env.mkstempName, .removeTemp env.mkstempName]
          "could not write content temp file"
    | none =>
      match req.src with
      | some s => .ok [] (env.template s) none
      | none => .fail [] "unreachable: no source description"

/-- `utils.md5(source)`.  When the source is the freshly written temp file its
md5 is the digest of the inline content (the file exists on disk at this
point, having just been written and closed); otherwise the oracle answers for
the path, `none` meaning the path does not exist. -/
def localMd5 (env : Env) (source : String) (temp : Option String)
    (content : Option String) : Option String :=
  match content, temp with
  | some c, some _ => some (env.hash c)
  | _, _ => env.md5 source

/-- The syntactic trailing-separator rewrite: `if dest.endswith("/"): dest =
os.path.join(dest, os.path.basename(source))`. -/
def destAfterSlash (dest source : String) : String :=
  if strEndsWith dest "/" then pathJoin dest (basename source) else dest

/-- The remote-side classification inside `_get_diff_data`, after a
successful peek: the `absent` / `appears_binary` / size-ceiling guards, or
the `slurp` fetch (with `persist_files=True`) whose `content` is base64
decoded, any other encoding raising an exception.  The Python representation
of the whole result dict inside the exception message is abstracted to the
reported encoding. -/
def diffRemoteSide (env : Env) (destination : String) :
    List Event × Except String DiffData :=
  let pk := env.peekResult destination
  if pk.state = "absent" then ([], .ok { before := some "" })
  else if pk.appears_binary then ([], .ok { dst_binary := true })
  else if pk.size > MAX_FILE_SIZE_FOR_DIFF then
    ([], .ok { dst_larger := some MAX_FILE_SIZE_FOR_DIFF })
  else
    let sEv : List Event := [.execMod "slurp" ("path=" ++ destination) true]
    let sl := env.slurpResult destination
    match sl.content with
    | none => (sEv, .ok {})
    | some c =>
      if sl.encoding = "base64" then
        (sEv, .ok { before_header := some destination
                    before := some (env.decode64 c) })
      else (sEv, .error ("unknown encoding, failed: " ++ sl.encoding))

/-- `src_contents.find("\\x00") != -1`: whether a string contains the null
character (expressed over the character list so that it evaluates by
`decide`). -/
def containsNull (s : String) : Bool :=
  s.data.contains (Char.ofNat 0)

/-- The local-side classification inside `_get_diff_data`: `open(source)`,
`src.read(8192)`, `os.stat(source)`, then the null-byte binary guard, the
size ceiling, or the full re-read populating `after_header`/`after`. -/
def diffLocalSide (env : Env) (source : String) (d : DiffData) :
    List Event × DiffData :=
  let localEvs : List Event :=
    [.openLocal source, .readLocal8k source, .statLocal source]
  if containsNull (env.localRead8k source) then
    (localEvs, { d with src_binary := true })
  else if env.localSize source > MAX_FILE_SIZE_FOR_DIFF then
    (localEvs, { d with src_larger := some MAX_FILE_SIZE_FOR_DIFF })
  else
    (localEvs ++ [.readLocalFull source],
     { d with after_header := some source
              after := some (env.localReadFull source) })

/-- `ActionModule._get_diff_data`: the `file diff_peek=1` remote call (with
`persist_files=True`); an unsuccessful peek returns the empty diff dict at
once; otherwise the remote side runs first and, when it raised no exception,
the local side runs on its result. -/
def get_diff_data (env : Env) (destination source : String) :
    List Event × Except String DiffData :=
  let pEv : List Event :=
    [.execMod "file" ("path=" ++ destination ++ " diff_peek=1") true]
  if ¬ (env.peekResult destination).successful then (pEv, .ok {})
  else
    match diffRemoteSide env destination with
    | (evs, .error e) => (pEv ++ evs, .error e)
    | (evs, .ok d) =>
      let (levs, d') := diffLocalSide env source d
      (pEv ++ evs ++ levs, .ok d')

/-- The tail of `run` starting right after the remote-md5 probes: `dest` and
`rmd5` are the effective destination and the probe result used for change
detection, `evs` the events accumulated so far (source resolution) and
`probeEvs` the probe events.  Covers the diff computation, the check-mode
return, the transfer (put_file, temp cleanup, chmod fixup, `copy`
delegation) and the equal-md5 `file`-module delegation. -/
def afterProbe (r : Runner) (tmp module_args : String) (req : Request)
    (env : Env) (evs : List Event) (source : String) (lmd5 : String)
    (dest : String) (probeEvs : List Event) (rmd5 : String) : RunOut :=
  if lmd5 ≠ rmd5 then
    let diffOut := if r.diff then get_diff_data env dest source else ([], .ok {})
    match diffOut with
    | (dEvs, .error e) => ⟨evs ++ probeEvs ++ dEvs, .exn e⟩
    | (dEvs, .ok dd) =>
      if r.check_mode then
        ⟨evs ++ probeEvs ++ dEvs ++
           (if req.content.isSome then [.removeTemp env.mkstempName] else []),
         .result { changed := true } (some dd)⟩
      else
        let tmp_src := tmp ++ basename source
        let args := module_args ++ " src=" ++ tmp_src
        ⟨evs ++ probeEvs ++ dEvs ++ [.putFile source tmp_src] ++
           (if req.content.isSome then [.removeTemp env.mkstempName] else []) ++
           (if r.sudo_enabled ∧ r.sudo_user ≠ "root" then
             [.chmod ("chmod a+r " ++ tmp_src)] else []) ++
           [.execMod "copy" args false],
         .result (env.applyModule "copy" args) none⟩
  else
    let tmp_src := tmp ++ basename source
    let args0 := module_args ++ " src=" ++ tmp_src
    let args := if r.check_mode then args0 ++ " CHECKMODE=True" else args0
    ⟨evs ++ probeEvs ++
       (if req.content.isSome then [.removeTemp env.mkstempName] else []) ++
       [.execMod "file" args false],
     .result (env.applyModule "file" args) none⟩

/-- `ActionModule.run`: validation, source resolution, local md5, the
trailing-separator destination rewrite, the first `_remote_md5` probe, the
directory-sentinel (`"3"`) handling (inline-content conflict failure, or
re-derived destination and a second probe), then `afterProbe`. -/
def runCore (r : Runner) (tmp module_args : String) (req : Request)
    (env : Env) : RunOut :=
  match validateMsg req with
  | some m => ⟨[], .result { failed := true, msg := some m } none⟩
  | none =>
    match resolveSource req env with
    | .fail evs m => ⟨evs, .result { failed := true, msg := some m } none⟩
    | .ok evs source temp =>
      match localMd5 env source temp req.content with
      | none =>
        ⟨evs, .result { failed := true
                        msg := some ("could not find src=" ++ source) } none⟩
      | some lmd5 =>
        let d1 := destAfterSlash (req.dest.getD "") source
        let r1 := env.remoteMd5 d1
        if r1 = "3" then
          if req.content.isSome then
            ⟨evs ++ [.probe d1, .removeTemp env.mkstempName],
             .result { failed := true
                       msg := some "can not use content with a dir as dest" } none⟩
          else
            let d2 := pathJoin d1 (basename source)
            afterProbe r tmp module_args req env evs source lmd5 d2
              [.probe d1, .probe d2] (env.remoteMd5 d2)
        else
          afterProbe r tmp module_args req env evs source lmd5 d1
            [.probe d1] r1

/-- Event classifiers used by the claims. -/
def isMkstemp : Event → Bool
  | .mkstemp _ => true
  | _ => false

def isRemoveTemp : Event → Bool
  | .removeTemp _ => true
  | _ => false

def isProbe : Event → Bool
  | .probe _ => true
  | _ => false

def isPutFile : Event → Bool
  | .putFile _ _ => true
  | _ => false

def isChmod : Event → Bool
  | .chmod _ => true
  | _ => false

/-- A module delegation proper: an `_execute_module` call without
`persist_files=True` (the diff engine's read-only peek/slurp calls pass
`persist_files=True`). -/
def isDelegation : Event → Bool
  | .execMod _ _ persist => ¬ persist
  | _ => false

def isOpenLocal : Event → Bool
  | .openLocal _ => true
  | _ => false

def isReadLocalFull : Event → Bool
  | .readLocalFull _ => true
  | _ => false

/-- A remote call that mutates the peer: staging upload, permission fixup, or
a module delegation (the probes and the persist-files diff reads are
read-only). -/
def isMutating (e : Event) : Bool :=
  isPutFile e || isChmod e || isDelegation e

/-- The path of the first `_remote_md5` probe in a trace, if any. -/
def firstProbePath (evs : List Event) : Option String :=
  evs.findSome? fun e =>
    match e with
    | .probe p => some p
    | _ => none

/-- Whether an outcome is an escaping exception. -/
def Outcome.isExn : Outcome → Bool
  | .exn _ => true
  | _ => false

/-- Events the diff engine can emit: persist-files module reads and local
file accesses. -/
def isDiffEvent : Event → Bool
  | .execMod _ _ persist => persist
  | .openLocal _ => true
  | .readLocal8k _ => true
  | .statLocal _ => true
  | .readLocalFull _ => true
  | _ => false

/-- A concrete oracle used to instantiate the theorems on closed inputs: one
local file `/files/f.txt` with md5 `d41d8c`, a remote peer whose every path
reports md5 `d41d8c`, a small text file on both sides, and a delegated module
that reports an attribute change. -/
def wEnv : Env where
  mkstempName := "/tmp/tmpAbC123"
  writeOk := true
  hash := fun c => "h" ++ c
  md5 := fun p => if p = "/files/f.txt" then some "d41d8c" else none
  template := fun s => s
  pathExists := fun p => p = "/files/f.txt"
  remoteMd5 := fun _ => "d41d8c"
  peekResult := fun _ =>
    { successful := true, state := "file", appears_binary := false, size := 10 }
  slurpResult := fun _ => { content := some "QUJD", encoding := "base64" }
  decode64 := fun _ => "ABC"
  localRead8k := fun _ => "hello"
  localSize := fun _ => 5
  localReadFull := fun _ => "hello world"
  applyModule := fun _ _ => { changed := true }

/-- A concrete plain-`src` request. -/
def wReq : Request where
  src := some "/files/f.txt"
  content := none
  dest := some "/etc/app/conf"
  faf := none

/-- A concrete inline-`content` request. -/
def wReqContent : Request where
  src := none
  content := some "hello"
  dest := some "/etc/app/conf"
  faf := none

/-- A concrete runner with every flag off. -/
def wRunner : Runner where
  diff := false
  check_mode := false
  sudo_enabled := false
  sudo_user := "root"

/-- The remote md5 that `run` ends up comparing against: the probe of the
(slash-rewritten) destination, or — when that probe reported the directory
sentinel — the probe of the re-derived `dest/basename(source)` path. -/
def effectiveRemoteMd5 (req : Request) (env : Env) (source : String) : String :=
  let d1 := destAfterSlash (req.dest.getD "") source
  if env.remoteMd5 d1 = "3" then
    env.remoteMd5 (pathJoin d1 (basename source))
  else env.remoteMd5 d1

/-- The argument string passed to the delegated `file` module on the
equal-md5 branch: `"%s src=%s" % (module_args, tmp_src)` plus
` CHECKMODE=True` in check mode. -/
def fileModuleArgs (r : Runner) (tmp module_args source : String) : String :=
  if r.check_mode then
    module_args ++ " src=" ++ (tmp ++ basename source) ++ " CHECKMODE=True"
  else module_args ++ " src=" ++ (tmp ++ basename source)

/-- `wEnv` with a remote peer whose every checksum probe differs from every
local md5. -/
def wEnvDiffer : Env := { wEnv with remoteMd5 := fun _ => "zzz" }

/-- `wEnv` with a remote peer that reports the directory sentinel on every
probe. -/
def wEnvDir : Env := { wEnv with remoteMd5 := fun _ => "3" }

/-- `wEnv` with a remote peer that reports the directory sentinel on the
first probed path only. -/
def wEnvDirOnce : Env :=
  { wEnv with remoteMd5 := fun p => if p = "/etc/app/conf" then "3" else "ddd" }

/-- `wEnv` with a failing `diff_peek` remote call. -/
def wEnvPeekFail : Env :=
  { wEnv with peekResult := fun _ =>
      { successful := false, state := "", appears_binary := false, size := 0 } }

/-- `wEnv` with a failing `diff_peek` call and a local file whose first 8 KiB
contain a null byte. -/
def wEnvPeekFailBinary : Env :=
  { wEnvPeekFail with
      localRead8k := fun _ => String.mk [Char.ofNat 65, Char.ofNat 0] }

/-- `wEnv` with a `slurp` result in an unsupported encoding. -/
def wEnvRawEncoding : Env :=
  { wEnv with slurpResult := fun _ => { content := some "x", encoding := "raw" } }

/-- `wReq` with a destination ending in a path separator. -/
def wReqSlash : Request := { wReq with dest := some "/etc/app/" }

/-- `wReqContent` with a destination ending in a path separator. -/
def wReqContentSlash : Request := { wReqContent with dest := some "/etc/app/" }

/-- `wRunner` with check mode on. -/
def wRunnerCheck : Runner := { wRunner with check_mode := true }

/-- The diff preview `_get_diff_data` produces for `wEnv` on destination
`/d` and source `/s`. -/
def wDiff : DiffData :=
  { before := some "ABC", before_header := some "/d",
    after := some "hello world", after_header := some "/s" }

lemma diffRemoteSide_events (env : Env) (destination : String) :
    ∀ e ∈ (diffRemoteSide env destination).1, isDiffEvent e = true := by
  intro e he
  rcases hc : (env.slurpResult destination).content with _ | c <;>
  by_cases h1 : (env.peekResult destination).state = "absent" <;>
  by_cases h2 : (env.peekResult destination).appears_binary = true <;>
  by_cases h3 : (env.peekResult destination).size > MAX_FILE_SIZE_FOR_DIFF <;>
  by_cases h4 : (env.slurpResult destination).encoding = "base64" <;>
  simp [diffRemoteSide, h1, h2, h3, h4, hc] at he <;>
  simp [he, isDiffEvent]

lemma diffLocalSide_events (env : Env) (source : String) (d : DiffData) :
    ∀ e ∈ (diffLocalSide env source d).1, isDiffEvent e = true := by
  intro e he
  by_cases h1 : containsNull (env.localRead8k source) = true <;>
  by_cases h2 : env.localSize source > MAX_FILE_SIZE_FOR_DIFF <;>
  simp [diffLocalSide, h1, h2] at he <;>
  casesm* _ ∨ _ <;> simp_all [isDiffEvent]

lemma get_diff_data_events (env : Env) (destination source : String) :
    ∀ e ∈ (get_diff_data env destination source).1, isDiffEvent e = true := by
  intro e he
  unfold get_diff_data at he
  split at he
  · simp at he; simp [he, isDiffEvent]
  · split at he
    · next hrem =>
      simp at he
      rcases he with h | h
      · simp [h, isDiffEvent]
      · exact diffRemoteSide_events env destination e (by rw [hrem]; exact h)
    · next evs d hrem =>
      simp at he
      rcases he with h | h | h
      · simp [h, isDiffEvent]
      · exact diffRemoteSide_events env destination e (by rw [hrem]; exact h)
      · exact diffLocalSide_events env source d e h

/-- A predicate refuted by every diff-engine event counts zero in a
diff-engine trace. -/
lemma gdd_countP_zero (env : Env) (destination source : String)
    (p : Event → Bool) (hp : ∀ e, isDiffEvent e = true → p e = false) :
    (get_diff_data env destination source).1.countP p = 0 :=
  List.countP_eq_zero.mpr fun e he => by
    simp [hp e (get_diff_data_events env destination source e he)]

lemma gdd_no_mkstemp (env : Env) (destination source : String) :
    (get_diff_data env destination source).1.countP isMkstemp = 0 :=
  gdd_countP_zero env destination source isMkstemp
    (fun e => by cases e <;> simp [isDiffEvent, isMkstemp])

lemma gdd_no_removeTemp (env : Env) (destination source : String) :
    (get_diff_data env destination source).1.countP isRemoveTemp = 0 :=
  gdd_countP_zero env destination source isRemoveTemp
    (fun e => by cases e <;> simp [isDiffEvent, isRemoveTemp])

lemma gdd_no_probe (env : Env) (destination source : String) :
    (get_diff_data env destination source).1.countP isProbe = 0 :=
  gdd_countP_zero env destination source isProbe
    (fun e => by cases e <;> simp [isDiffEvent, isProbe])

lemma gdd_no_mutating (env : Env) (destination source : String) :
    (get_diff_data env destination source).1.countP isMutating = 0 :=
  gdd_countP_zero env destination source isMutating
    (fun e => by
      cases e <;>
        simp [isDiffEvent, isMutating, isPutFile, isChmod, isDelegation])

lemma diffEvent_not_mkstemp (e : Event) (h : isDiffEvent e = true) :
    isMkstemp e = false := by
  cases e <;> simp_all [isDiffEvent, isMkstemp]

lemma diffEvent_not_removeTemp (e : Event) (h : isDiffEvent e = true) :
    isRemoveTemp e = false := by
  cases e <;> simp_all [isDiffEvent, isRemoveTemp]

lemma diffEvent_not_probe (e : Event) (h : isDiffEvent e = true) :
    isProbe e = false := by
  cases e <;> simp_all [isDiffEvent, isProbe]

lemma diffEvent_not_mutating (e : Event) (h : isDiffEvent e = true) :
    isMutating e = false := by
  cases e <;>
    simp_all [isDiffEvent, isMutating, isPutFile, isChmod, isDelegation]

lemma countP_zero_of_all (l : List Event) (p : Event → Bool)
    (h : ∀ e ∈ l, p e = false) : l.countP p = 0 :=
  List.countP_eq_zero.mpr fun e he => by simp [h e he]

/-- A failing source resolution emitted either no event or the
mkstemp/remove pair of the content write failure. -/
lemma resolveSource_fail_shape (req : Request) (env : Env)
    (evs : List Event) (m : String)
    (h : resolveSource req env = .fail evs m) :
    evs = [] ∨
    evs = [.mkstemp env.mkstempName, .removeTemp env.mkstempName] := by
  rcases hfaf : req.faf with _ | fns <;>
  rcases hcon : req.content with _ | c
  · rcases hsrc : req.src with _ | s <;>
      simp [resolveSource, hfaf, hcon, hsrc] at h
    · exact Or.inl h.1
  · by_cases hw : env.writeOk = true <;>
      simp [resolveSource, hfaf, hcon, hw] at h
    exact Or.inr h.1.symm
  · rcases hfind : fns.find? (fun fn => env.pathExists (env.template fn)) with
      _ | fn <;> simp [resolveSource, hfaf, hfind] at h
    exact Or.inl h.1
  · rcases hfind : fns.find? (fun fn => env.pathExists (env.template fn)) with
      _ | fn <;> simp [resolveSource, hfaf, hfind] at h
    exact Or.inl h.1

/-- When validation has passed, a successful source resolution created the
temp file exactly when inline content was supplied, and emitted no other
event. -/
lemma resolveSource_ok_shape (req : Request) (env : Env)
    (evs : List Event) (source : String) (temp : Option String)
    (hval : validateMsg req = none)
    (h : resolveSource req env = .ok evs source temp) :
    (req.content.isSome →
      temp = some env.mkstempName ∧ source = env.mkstempName ∧
      evs = [.mkstemp env.mkstempName]) ∧
    (req.content = none → temp = none ∧ evs = []) := by
  rcases hfaf : req.faf with _ | fns <;>
  rcases hcon : req.content with _ | c
  · -- no faf, no content: the `src` branch
    rcases hsrc : req.src with _ | s <;>
      simp [resolveSource, hfaf, hcon, hsrc] at h
    obtain ⟨h1, -, h3⟩ := h
    simp [← h1, ← h3]
  · -- no faf, content: the mkstemp branch
    by_cases hw : env.writeOk = true <;>
      simp [resolveSource, hfaf, hcon, hw] at h
    obtain ⟨h1, h2, h3⟩ := h
    simp [← h1, ← h2, ← h3]
  · -- faf, no content
    rcases hfind : fns.find? (fun fn => env.pathExists (env.template fn)) with
      _ | fn <;> simp [resolveSource, hfaf, hfind] at h
    obtain ⟨h1, -, h3⟩ := h
    simp [← h1, ← h3]
  · -- faf and content together are rejected by validation
    exfalso
    by_cases hd : req.dest = none <;>
      simp [validateMsg, hfaf, hcon, hd] at hval

/-- With inline content and a temp file, the local md5 is the digest of the
content (the temp file was just written). -/
lemma localMd5_content (env : Env) (source t c : String) :
    localMd5 env source (some t) (some c) = some (env.hash c) := rfl

/-- Shape of `afterProbe` on every path that ends in a `ReturnData`: the
trace is the accumulated events, the probes, some diff-engine events, and a
tail that removes the temp file exactly when inline content was supplied and
contains no probe or temp-file event otherwise. -/
lemma afterProbe_shape (r : Runner) (tmp module_args : String) (req : Request)
    (env : Env) (evs : List Event) (source lmd5 dest : String)
    (probeEvs : List Event) (rmd5 : String)
    (hexn : (afterProbe r tmp module_args req env evs source lmd5 dest
        probeEvs rmd5).outcome.isExn = false) :
    ∃ dEvs extra,
      (afterProbe r tmp module_args req env evs source lmd5 dest probeEvs
          rmd5).events = evs ++ probeEvs ++ dEvs ++ extra ∧
      (∀ e ∈ dEvs, isDiffEvent e = true) ∧
      extra.countP isRemoveTemp = (if req.content.isSome then 1 else 0) ∧
      extra.countP isMkstemp = 0 ∧
      extra.countP isProbe = 0 := by
  by_cases hne : lmd5 = rmd5
  · -- equal md5s: the `file` delegation branch
    refine ⟨[], (if req.content.isSome then [.removeTemp env.mkstempName]
        else []) ++
      [.execMod "file" (if r.check_mode then
          module_args ++ " src=" ++ (tmp ++ basename source) ++ " CHECKMODE=True"
        else module_args ++ " src=" ++ (tmp ++ basename source)) false],
      ?_, by simp, ?_, ?_, ?_⟩ <;>
      by_cases hcon : req.content.isSome = true <;>
      by_cases hck : r.check_mode = true <;>
      simp [afterProbe, hne, hck, hcon, List.countP_cons, List.countP_append,
        isRemoveTemp, isMkstemp, isProbe]
  · -- md5s differ
    rcases hdo : (if r.diff then get_diff_data env dest source
        else ([], Except.ok {})) with ⟨dEvs, dRes⟩
    have hdEvs : ∀ e ∈ dEvs, isDiffEvent e = true := by
      by_cases hd : r.diff = true <;> simp [hd] at hdo
      · intro e he
        have h1 : (get_diff_data env dest source).1 = dEvs :=
          congrArg Prod.fst hdo
        exact get_diff_data_events env dest source e (by rw [h1]; exact he)
      · intro e he
        rw [hdo.1] at he
        simp at he
    rcases dRes with e | dd
    · exfalso
      simp [afterProbe, hne, hdo, Outcome.isExn] at hexn
    · by_cases hck : r.check_mode = true
      · -- check mode return
        refine ⟨dEvs, (if req.content.isSome then [.removeTemp env.mkstempName]
            else []), ?_, hdEvs, ?_, ?_, ?_⟩ <;>
          by_cases hcon : req.content.isSome = true <;>
          simp [afterProbe, hne, hdo, hck, hcon, List.countP_cons,
            isRemoveTemp, isMkstemp, isProbe]
      · -- transfer branch
        refine ⟨dEvs, [Event.putFile source (tmp ++ basename source)] ++
            (if req.content.isSome then [.removeTemp env.mkstempName]
              else []) ++
            (if r.sudo_enabled ∧ r.sudo_user ≠ "root" then
              [.chmod ("chmod a+r " ++ (tmp ++ basename source))] else []) ++
            [.execMod "copy"
              (module_args ++ " src=" ++ (tmp ++ basename source)) false],
          ?_, hdEvs, ?_, ?_, ?_⟩ <;>
          by_cases hcon : req.content.isSome = true <;>
          by_cases hs : r.sudo_enabled = true ∧ r.sudo_user ≠ "root" <;>
          simp [afterProbe, hne, hdo, hck, hcon, hs, List.countP_cons,
            List.countP_append, isRemoveTemp, isMkstemp, isProbe]

/-- Once validation has passed, an inline-content request has neither `src`
nor the `first_available_file` list. -/
lemma validate_content (req : Request) (c : String)
    (hval : validateMsg req = none) (hcon : req.content = some c) :
    req.src = none ∧ req.faf = none := by
  rcases hsrc : req.src with _ | s <;>
  rcases hfaf : req.faf with _ | fns <;>
  by_cases hd : req.dest = none <;>
    simp_all [validateMsg]

/-- The remote side of the diff engine never touches the local file. -/
lemma diffRemoteSide_no_readFull (env : Env) (destination : String) :
    ∀ e ∈ (diffRemoteSide env destination).1, isReadLocalFull e = false := by
  intro e he
  rcases hc : (env.slurpResult destination).content with _ | c <;>
  by_cases h1 : (env.peekResult destination).state = "absent" <;>
  by_cases h2 : (env.peekResult destination).appears_binary = true <;>
  by_cases h3 : (env.peekResult destination).size > MAX_FILE_SIZE_FOR_DIFF <;>
  by_cases h4 : (env.slurpResult destination).encoding = "base64" <;>
  simp [diffRemoteSide, h1, h2, h3, h4, hc] at he <;>
  simp [he, isReadLocalFull]

/-- The remote side of the diff engine leaves every local-side field of the
diff dict unset. -/
lemma diffRemoteSide_ok_shape (env : Env) (destination : String)
    (evs : List Event) (d : DiffData)
    (h : diffRemoteSide env destination = (evs, .ok d)) :
    d.after = none ∧ d.after_header = none ∧ d.src_binary = false ∧
    d.src_larger = none := by
  rcases hc : (env.slurpResult destination).content with _ | c <;>
  by_cases h1 : (env.peekResult destination).state = "absent" <;>
  by_cases h2 : (env.peekResult destination).appears_binary = true <;>
  by_cases h3 : (env.peekResult destination).size > MAX_FILE_SIZE_FOR_DIFF <;>
  by_cases h4 : (env.slurpResult destination).encoding = "base64" <;>
  simp [diffRemoteSide, h1, h2, h3, h4, hc] at h <;>
  simp [← h.2]

/-- Events of the (possibly disabled) diff step inside `afterProbe`. -/
lemma diffOut_events (env : Env) (dest source : String) (b : Bool)
    (dEvs : List Event) (dRes : Except String DiffData)
    (hdo : (if b then get_diff_data env dest source
        else ([], Except.ok ({} : DiffData))) = (dEvs, dRes)) :
    ∀ e ∈ dEvs, isDiffEvent e = true := by
  by_cases hb : b = true <;> simp [hb] at hdo
  · intro e he
    have h1 : (get_diff_data env dest source).1 = dEvs := congrArg Prod.fst hdo
    exact get_diff_data_events env dest source e (by rw [h1]; exact he)
  · intro e he
    rw [hdo.1] at he
    simp at he

/-- Equal md5s: `afterProbe` removes the temp file when inline content was
used and delegates to the `file` module, passing its result through. -/
lemma afterProbe_equal (r : Runner) (tmp module_args : String) (req : Request)
    (env : Env) (evs : List Event) (source lmd5 dest : String)
    (probeEvs : List Event) (rmd5 : String) (hEq : lmd5 = rmd5) :
    afterProbe r tmp module_args req env evs source lmd5 dest probeEvs rmd5 =
      ⟨evs ++ probeEvs ++
        (if req.content.isSome then [.removeTemp env.mkstempName] else []) ++
        [.execMod "file" (fileModuleArgs r tmp module_args source) false],
       .result (env.applyModule "file" (fileModuleArgs r tmp module_args source))
         none⟩ := by
  by_cases hck : r.check_mode = true <;>
    simp [afterProbe, fileModuleArgs, hEq, hck]

/-- Differing md5s in check mode: `afterProbe` returns `changed=true` with
the diff attached, after removing the temp file when inline content was
used; the only other events are the diff engine's. -/
lemma afterProbe_check (r : Runner) (tmp module_args : String) (req : Request)
    (env : Env) (evs : List Event) (source lmd5 dest : String)
    (probeEvs : List Event) (rmd5 : String)
    (hne : lmd5 ≠ rmd5) (hck : r.check_mode = true)
    (hexn : (afterProbe r tmp module_args req env evs source lmd5 dest
        probeEvs rmd5).outcome.isExn = false) :
    ∃ dd dEvs, (∀ e ∈ dEvs, isDiffEvent e = true) ∧
      afterProbe r tmp module_args req env evs source lmd5 dest probeEvs
          rmd5 =
        ⟨evs ++ probeEvs ++ dEvs ++
          (if req.content.isSome then [.removeTemp env.mkstempName] else []),
         .result { changed := true } (some dd)⟩ := by
  rcases hdo : (if r.diff then get_diff_data env dest source
      else ([], Except.ok ({} : DiffData))) with ⟨dEvs, dRes⟩
  have hdEvs := diffOut_events env dest source r.diff dEvs dRes hdo
  rcases dRes with e | dd
  · exfalso
    simp [afterProbe, hne, hdo, Outcome.isExn] at hexn
  · exact ⟨dd, dEvs, hdEvs, by simp [afterProbe, hne, hdo, hck]⟩

/-- `afterProbe` performs no probe beyond the ones it is handed. -/
lemma afterProbe_probe_count (r : Runner) (tmp module_args : String)
    (req : Request) (env : Env) (evs : List Event) (source lmd5 dest : String)
    (probeEvs : List Event) (rmd5 : String) :
    (afterProbe r tmp module_args req env evs source lmd5 dest probeEvs
        rmd5).events.countP isProbe =
      evs.countP isProbe + probeEvs.countP isProbe := by
  by_cases hne : lmd5 = rmd5
  · by_cases hcon : req.content.isSome = true <;>
    by_cases hck : r.check_mode = true <;>
      simp [afterProbe, hne, hcon, hck, List.countP_append, List.countP_cons,
        isProbe]
  · rcases hdo : (if r.diff then get_diff_data env dest source
        else ([], Except.ok ({} : DiffData))) with ⟨dEvs, dRes⟩
    have hdEvs := diffOut_events env dest source r.diff dEvs dRes hdo
    have hdp : dEvs.countP isProbe = 0 :=
      countP_zero_of_all dEvs _ fun e he => diffEvent_not_probe e (hdEvs e he)
    rcases dRes with e | dd <;>
      by_cases hcon : req.content.isSome = true <;>
      by_cases hck : r.check_mode = true <;>
      by_cases hs : r.sudo_enabled = true ∧ r.sudo_user ≠ "root" <;>
      simp [afterProbe, hne, hdo, hcon, hck, hs, hdp, List.countP_append,
        List.countP_cons, isProbe]

/-- Whatever branch it takes, the trace of `afterProbe` starts with the
accumulated events and the probes it was handed. -/
lemma afterProbe_events_split (r : Runner) (tmp module_args : String)
    (req : Request) (env : Env) (evs : List Event) (source lmd5 dest : String)
    (probeEvs : List Event) (rmd5 : String) :
    ∃ rest, (afterProbe r tmp module_args req env evs source lmd5 dest
      probeEvs rmd5).events = evs ++ probeEvs ++ rest := by
  by_cases hne : lmd5 = rmd5
  · refine ⟨(if req.content.isSome then [.removeTemp env.mkstempName]
      else []) ++
      [.execMod "file" (fileModuleArgs r tmp module_args source) false], ?_⟩
    rw [afterProbe_equal r tmp module_args req env evs source lmd5 dest
      probeEvs rmd5 hne]
    simp
  · rcases hdo : (if r.diff then get_diff_data env dest source
        else ([], Except.ok ({} : DiffData))) with ⟨dEvs, dRes⟩
    rcases dRes with e | dd
    · exact ⟨dEvs, by simp [afterProbe, hne, hdo]⟩
    · by_cases hck : r.check_mode = true
      · exact ⟨dEvs ++ (if req.content.isSome then
          [.removeTemp env.mkstempName] else []),
          by simp [afterProbe, hne, hdo, hck]⟩
      · refine ⟨dEvs ++ [.putFile source (tmp ++ basename source)] ++
          (if req.content.isSome then [.removeTemp env.mkstempName]
            else []) ++
          (if r.sudo_enabled ∧ r.sudo_user ≠ "root" then
            [.chmod ("chmod a+r " ++ (tmp ++ basename source))] else []) ++
          [.execMod "copy"
            (module_args ++ " src=" ++ (tmp ++ basename source)) false], ?_⟩
        simp [afterProbe, hne, hdo, hck]

lemma firstProbePath_append (l1 l2 : List Event) :
    firstProbePath (l1 ++ l2) =
      (firstProbePath l1).or (firstProbePath l2) := by
  simp [firstProbePath, List.findSome?_append]

lemma firstProbePath_probe_cons (p : String) (l : List Event) :
    firstProbePath (.probe p :: l) = some p := rfl

/-- The first `_remote_md5` probe of any `run` that got past source
resolution and the local md5 is on the slash-rewritten destination. -/
lemma runCore_firstProbe (r : Runner) (tmp module_args : String)
    (req : Request) (env : Env) (evs : List Event) (source : String)
    (temp : Option String) (lmd5 : String)
    (hval : validateMsg req = none)
    (hres : resolveSource req env = .ok evs source temp)
    (hmd5 : localMd5 env source temp req.content = some lmd5) :
    firstProbePath (runCore r tmp module_args req env).events =
      some (destAfterSlash (req.dest.getD "") source) := by
  have hsh := resolveSource_ok_shape req env evs source temp hval hres
  have hevs : firstProbePath evs = none := by
    rcases hcon : req.content with _ | c
    · obtain ⟨-, h⟩ := hsh.2 hcon
      simp [h, firstProbePath]
    · obtain ⟨-, -, h⟩ := hsh.1 (by simp [hcon])
      simp [h, firstProbePath, List.findSome?]
  by_cases h3 : env.remoteMd5 (destAfterSlash (req.dest.getD "") source) = "3"
  · rcases hcon : req.content with _ | c
    · rw [hcon] at hmd5
      simp only [runCore, hval, hres, hmd5, h3, hcon, Option.isSome_none,
        Bool.false_eq_true, if_true, if_false, if_pos]
      obtain ⟨rest, hev⟩ := afterProbe_events_split r tmp module_args req env
        evs source lmd5
        (pathJoin (destAfterSlash (req.dest.getD "") source) (basename source))
        [.probe (destAfterSlash (req.dest.getD "") source),
         .probe (pathJoin (destAfterSlash (req.dest.getD "") source)
           (basename source))]
        (env.remoteMd5 (pathJoin (destAfterSlash (req.dest.getD "") source)
          (basename source)))
      rw [hev, firstProbePath_append, firstProbePath_append, hevs]
      simp [firstProbePath_probe_cons]
    · -- inline content: the conflict failure still probed the
      -- slash-rewritten destination first
      obtain ⟨-, -, hevs2⟩ := hsh.1 (by simp [hcon])
      rw [hcon] at hmd5
      simp only [runCore, hval, hres, hmd5, h3, hcon, Option.isSome_some,
        if_true, if_pos]
      rw [hevs2]
      simp [firstProbePath, List.findSome?]
  · simp only [runCore, hval, hres, hmd5, h3, if_false]
    obtain ⟨rest, hev⟩ := afterProbe_events_split r tmp module_args req env
      evs source lmd5 (destAfterSlash (req.dest.getD "") source)
      [.probe (destAfterSlash (req.dest.getD "") source)]
      (env.remoteMd5 (destAfterSlash (req.dest.getD "") source))
    rw [hev, firstProbePath_append, firstProbePath_append, hevs]
    simp [firstProbePath_probe_cons]

/-- C1: On every execution path of `run` that ends in a `ReturnData`
(success, every failure return, and the check-mode return), the ephemeral
temp file created to hold inline content is deleted exactly once — as many
`os.remove` calls as `mkstemp` calls, and at most one creation — so it is
never leaked and never removed twice. -/
theorem temp_file_released_exactly_once
    (r : Runner) (tmp module_args : String) (req : Request) (env : Env)
    (hexn : (runCore r tmp module_args req env).outcome.isExn = false) :
    (runCore r tmp module_args req env).events.countP isRemoveTemp =
      (runCore r tmp module_args req env).events.countP isMkstemp ∧
    (runCore r tmp module_args req env).events.countP isMkstemp ≤ 1 := by
  rcases hval : validateMsg req with _ | m
  case some =>
    simp [runCore, hval]
  case none =>
  rcases hres : resolveSource req env with ⟨evs, m⟩ | ⟨evs, source, temp⟩
  · -- early failure inside source resolution
    rcases resolveSource_fail_shape req env evs m hres with h | h <;>
      simp [runCore, hval, hres, h, List.countP_cons, isRemoveTemp, isMkstemp]
  · have hsh := resolveSource_ok_shape req env evs source temp hval hres
    rcases hmd5 : localMd5 env source temp req.content with _ | lmd5
    · -- utils.md5 returned None: only reachable without inline content
      rcases hcon : req.content with _ | c
      · obtain ⟨-, hevs⟩ := hsh.2 hcon
        simp [runCore, hval, hres, hmd5, hevs]
      · obtain ⟨htemp, -, -⟩ := hsh.1 (by simp [hcon])
        rw [hcon, htemp] at hmd5
        simp [localMd5] at hmd5
    · -- md5 computed; probes follow
      by_cases h3 : env.remoteMd5 (destAfterSlash (req.dest.getD "") source) = "3"
      · rcases hcon : req.content with _ | c
        · -- directory sentinel, plain source: second probe then afterProbe
          obtain ⟨-, hevs⟩ := hsh.2 hcon
          rw [hcon] at hmd5
          simp only [runCore, hval, hres, hmd5, h3, hcon, if_pos, if_true,
            Option.isSome_none, Bool.false_eq_true, if_false] at hexn ⊢
          obtain ⟨dEvs, extra, hev, hdEvs, hrm, hmk, -⟩ :=
            afterProbe_shape r tmp module_args req env evs source lmd5 _ _ _
              hexn
          rw [hev, hevs]
          have hdrm : dEvs.countP isRemoveTemp = 0 :=
            countP_zero_of_all dEvs _ fun e he =>
              diffEvent_not_removeTemp e (hdEvs e he)
          have hdmk : dEvs.countP isMkstemp = 0 :=
            countP_zero_of_all dEvs _ fun e he =>
              diffEvent_not_mkstemp e (hdEvs e he)
          simp [List.countP_append, List.countP_cons, hdrm, hdmk, hrm, hmk,
            isRemoveTemp, isMkstemp, hcon]
        · -- directory sentinel with inline content: conflict failure
          obtain ⟨-, -, hevs⟩ := hsh.1 (by simp [hcon])
          rw [hcon] at hmd5
          simp [runCore, hval, hres, hmd5, h3, hcon, hevs,
            List.countP_cons, isRemoveTemp, isMkstemp]
      · -- no directory sentinel: single probe then afterProbe
        simp only [runCore, hval, hres, hmd5, h3, if_false] at hexn ⊢
        obtain ⟨dEvs, extra, hev, hdEvs, hrm, hmk, -⟩ :=
          afterProbe_shape r tmp module_args req env evs source lmd5 _ _ _
            hexn
        rw [hev]
        have hdrm : dEvs.countP isRemoveTemp = 0 :=
          countP_zero_of_all dEvs _ fun e he =>
            diffEvent_not_removeTemp e (hdEvs e he)
        have hdmk : dEvs.countP isMkstemp = 0 :=
          countP_zero_of_all dEvs _ fun e he =>
            diffEvent_not_mkstemp e (hdEvs e he)
        rcases hcon : req.content with _ | c
        · obtain ⟨-, hevs⟩ := hsh.2 hcon
          simp [hevs, List.countP_append, List.countP_cons, hdrm, hdmk, hrm,
            hmk, isRemoveTemp, isMkstemp, hcon]
        · obtain ⟨-, -, hevs⟩ := hsh.1 (by simp [hcon])
          simp [hevs, List.countP_append, List.countP_cons, hdrm, hdmk, hrm,
            hmk, isRemoveTemp, isMkstemp, hcon]

/-- Witness for C1: an inline-content request whose temp file is created and
removed exactly once on the transfer path. -/
theorem temp_file_released_exactly_once_witness :
    (runCore wRunner "/t/" "a" wReqContent wEnv).outcome.isExn = false ∧
    ((runCore wRunner "/t/" "a" wReqContent wEnv).events.countP isRemoveTemp =
      (runCore wRunner "/t/" "a" wReqContent wEnv).events.countP isMkstemp ∧
     (runCore wRunner "/t/" "a" wReqContent wEnv).events.countP isMkstemp ≤ 1) :=
  ⟨by decide, temp_file_released_exactly_once wRunner "/t/" "a" wReqContent
    wEnv (by decide)⟩

/-- C9: When the remote attribute peek does not succeed, the diff engine
returns the empty diff dict at once — no before/after/binary/size field
populated — and its whole trace is the peek call: the local file is never
opened or read. -/
theorem peek_failure_empty_diff (env : Env) (destination source : String)
    (h : (env.peekResult destination).successful = false) :
    get_diff_data env destination source =
      ([.execMod "file" ("path=" ++ destination ++ " diff_peek=1") true],
       .ok {}) := by
  simp [get_diff_data, h]

/-- Witness for C9 at a concrete failing peek. -/
theorem peek_failure_empty_diff_witness :
    (wEnvPeekFail.peekResult "/d").successful = false ∧
    get_diff_data wEnvPeekFail "/d" "/s" =
      ([.execMod "file" ("path=" ++ "/d" ++ " diff_peek=1") true], .ok {}) :=
  ⟨rfl, peek_failure_empty_diff wEnvPeekFail "/d" "/s" rfl⟩

/-- C8: When the remote content read (`slurp`) returns content in an encoding
other than base64, the diff engine raises an exception (an `Except.error`
that `run` propagates as an escaping exception), not a soft failed-result
value. -/
theorem unknown_encoding_raises (env : Env) (destination source c : String)
    (hsucc : (env.peekResult destination).successful = true)
    (hstate : (env.peekResult destination).state ≠ "absent")
    (hbin : (env.peekResult destination).appears_binary = false)
    (hsize : ¬ (env.peekResult destination).size > MAX_FILE_SIZE_FOR_DIFF)
    (hcont : (env.slurpResult destination).content = some c)
    (henc : (env.slurpResult destination).encoding ≠ "base64") :
    (get_diff_data env destination source).2 =
      .error ("unknown encoding, failed: " ++
        (env.slurpResult destination).encoding) := by
  have hrem : diffRemoteSide env destination =
      ([.execMod "slurp" ("path=" ++ destination) true],
       .error ("unknown encoding, failed: " ++
         (env.slurpResult destination).encoding)) := by
    simp [diffRemoteSide, hstate, hbin, hsize, hcont, henc]
  simp [get_diff_data, hsucc, hrem]

/-- Witness for C8 at a concrete `raw`-encoded slurp result. -/
theorem unknown_encoding_raises_witness :
    (wEnvRawEncoding.slurpResult "/d").encoding ≠ "base64" ∧
    (get_diff_data wEnvRawEncoding "/d" "/s").2 =
      .error ("unknown encoding, failed: " ++
        (wEnvRawEncoding.slurpResult "/d").encoding) :=
  ⟨by decide, unknown_encoding_raises wEnvRawEncoding "/d" "/s" "x" rfl
    (by decide) rfl (by decide) rfl (by decide)⟩

/-- Counterexample to C7 as stated: in a diff-engine invocation whose remote
attribute peek fails, a local file whose first 8 KiB contain a null byte
still yields the empty preview, without the src-binary flag the claim
requires. -/
theorem local_guards_cx :
    containsNull (wEnvPeekFailBinary.localRead8k "/s") = true ∧
    (get_diff_data wEnvPeekFailBinary "/d" "/s").2 = .ok {} ∧
    ({} : DiffData).src_binary = false :=
  ⟨by decide, rfl, rfl⟩

/-- C7 (amended): in every diff-engine invocation whose remote attribute peek
succeeds and which returns a preview, the local side obeys the guards: a null
byte in the first 8 KiB sets the src-binary flag and the file is never re-read
in full; otherwise a size above the ceiling sets `src_larger` and produces no
`after` content; otherwise the file is re-read and the full content becomes
`after` with `after_header = source`. -/
theorem local_guards (env : Env) (destination source : String) (d : DiffData)
    (hsucc : (env.peekResult destination).successful = true)
    (hok : (get_diff_data env destination source).2 = .ok d) :
    (containsNull (env.localRead8k source) = true →
      d.src_binary = true ∧
      (get_diff_data env destination source).1.countP isReadLocalFull = 0) ∧
    (containsNull (env.localRead8k source) = false →
      env.localSize source > MAX_FILE_SIZE_FOR_DIFF →
      d.src_larger = some MAX_FILE_SIZE_FOR_DIFF ∧ d.after = none ∧
      (get_diff_data env destination source).1.countP isReadLocalFull = 0) ∧
    (containsNull (env.localRead8k source) = false →
      ¬ env.localSize source > MAX_FILE_SIZE_FOR_DIFF →
      d.after = some (env.localReadFull source) ∧
      d.after_header = some source) := by
  rcases hrem : diffRemoteSide env destination with ⟨revs, rRes⟩
  have hrevs : revs.countP isReadLocalFull = 0 :=
    countP_zero_of_all revs _ fun e he =>
      diffRemoteSide_no_readFull env destination e (by rw [hrem]; exact he)
  rcases rRes with e | d0
  · exfalso
    simp [get_diff_data, hsucc, hrem] at hok
  · have hshape := diffRemoteSide_ok_shape env destination revs d0 hrem
    by_cases hb : containsNull (env.localRead8k source) = true
    · have hd : d = { d0 with src_binary := true } := by
        simp [get_diff_data, hsucc, hrem, diffLocalSide, hb] at hok
        exact hok.symm
      refine ⟨fun _ => ⟨by rw [hd], ?_⟩,
        fun hb' => by rw [hb'] at hb; simp at hb,
        fun hb' => by rw [hb'] at hb; simp at hb⟩
      simp [get_diff_data, hsucc, hrem, diffLocalSide, hb,
        List.countP_append, List.countP_cons, hrevs, isReadLocalFull]
    · replace hb : containsNull (env.localRead8k source) = false := by
        simpa using hb
      by_cases hsz : env.localSize source > MAX_FILE_SIZE_FOR_DIFF
      · have hd : d = { d0 with src_larger := some MAX_FILE_SIZE_FOR_DIFF } := by
          simp [get_diff_data, hsucc, hrem, diffLocalSide, hb, hsz] at hok
          exact hok.symm
        refine ⟨fun hb' => by rw [hb'] at hb; simp at hb,
          fun _ _ => ⟨by rw [hd], by rw [hd]; exact hshape.1, ?_⟩,
          fun _ hsz' => absurd hsz hsz'⟩
        simp [get_diff_data, hsucc, hrem, diffLocalSide, hb, hsz,
          List.countP_append, List.countP_cons, hrevs, isReadLocalFull]
      · have hd :
            d = { d0 with after := some (env.localReadFull source),
                          after_header := some source } := by
          simp [get_diff_data, hsucc, hrem, diffLocalSide, hb, hsz] at hok
          exact hok.symm
        exact ⟨fun hb' => by rw [hb'] at hb; simp at hb,
          fun _ hsz' => absurd hsz' hsz,
          fun _ _ => ⟨by rw [hd], by rw [hd]⟩⟩

/-- Witness for C7 (amended) at a concrete small text file on both sides. -/
theorem local_guards_witness :
    (wEnv.peekResult "/d").successful = true ∧
    (get_diff_data wEnv "/d" "/s").2 = .ok wDiff ∧
    (containsNull (wEnv.localRead8k "/s") = false →
      ¬ wEnv.localSize "/s" > MAX_FILE_SIZE_FOR_DIFF →
      wDiff.after = some (wEnv.localReadFull "/s") ∧
      wDiff.after_header = some "/s") :=
  ⟨rfl, rfl, (local_guards wEnv "/d" "/s" wDiff rfl rfl).2.2⟩

/-- C4: When the destination path ends with a path separator, the first
remote probe already targets `dest + basename(resolved source)`: the rewrite
is the purely syntactic `destAfterSlash` (a function of the two paths alone),
applied before any remote interaction. -/
theorem trailing_slash_dest (r : Runner) (tmp module_args : String)
    (req : Request) (env : Env) (evs : List Event) (source : String)
    (temp : Option String) (lmd5 d : String)
    (hval : validateMsg req = none)
    (hres : resolveSource req env = .ok evs source temp)
    (hmd5 : localMd5 env source temp req.content = some lmd5)
    (hdest : req.dest = some d) (hslash : strEndsWith d "/" = true) :
    firstProbePath (runCore r tmp module_args req env).events =
      some (pathJoin d (basename source)) := by
  have h := runCore_firstProbe r tmp module_args req env evs source temp lmd5
    hval hres hmd5
  rw [hdest] at h
  simpa [destAfterSlash, hslash] using h

/-- Witness for C4: `dest=/etc/app/` with source `/files/f.txt` probes
`/etc/app/f.txt` first. -/
theorem trailing_slash_dest_witness :
    (strEndsWith "/etc/app/" "/" = true) ∧
    firstProbePath (runCore wRunner "/t/" "a" wReqSlash wEnv).events =
      some (pathJoin "/etc/app/" (basename "/files/f.txt")) :=
  ⟨by decide, trailing_slash_dest wRunner "/t/" "a" wReqSlash wEnv []
    "/files/f.txt" none "d41d8c" "/etc/app/" (by decide) (by decide)
    (by decide) rfl (by decide)⟩

/-- C10: For an inline-content request whose destination ends with a path
separator, the basename appended to the destination is the basename of the
freshly created `mkstemp` temp file, so the effective remote filename derives
from the random temp name, not from any caller-supplied name. -/
theorem content_slash_uses_temp_name (r : Runner) (tmp module_args : String)
    (req : Request) (env : Env) (c d : String)
    (hval : validateMsg req = none) (hcon : req.content = some c)
    (hw : env.writeOk = true) (hdest : req.dest = some d)
    (hslash : strEndsWith d "/" = true) :
    firstProbePath (runCore r tmp module_args req env).events =
      some (pathJoin d (basename env.mkstempName)) := by
  obtain ⟨hsrc, hfaf⟩ := validate_content req c hval hcon
  have hres : resolveSource req env =
      .ok [.mkstemp env.mkstempName] env.mkstempName
        (some env.mkstempName) := by
    simp [resolveSource, hfaf, hcon, hw]
  have hmd5 : localMd5 env env.mkstempName (some env.mkstempName)
      req.content = some (env.hash c) := by
    simp [localMd5, hcon]
  have h := runCore_firstProbe r tmp module_args req env _ _ _ _ hval hres
    hmd5
  rw [hdest] at h
  simpa [destAfterSlash, hslash] using h

/-- Witness for C10: inline content with `dest=/etc/app/` probes
`/etc/app/tmpAbC123` — the mkstemp basename. -/
theorem content_slash_uses_temp_name_witness :
    wReqContentSlash.content = some "hello" ∧
    firstProbePath (runCore wRunner "/t/" "a" wReqContentSlash wEnv).events =
      some (pathJoin "/etc/app/" (basename wEnv.mkstempName)) :=
  ⟨rfl, content_slash_uses_temp_name wRunner "/t/" "a" wReqContentSlash wEnv
    "hello" "/etc/app/" (by decide) rfl rfl rfl (by decide)⟩

/-- C6: For an inline-content request whose first probe reports the
directory sentinel, `run` fails with the content-directory-conflict message
and its whole trace is mkstemp, one probe, and the temp-file removal: no
second probe, no staging, no delegation. -/
theorem content_dir_conflict (r : Runner) (tmp module_args : String)
    (req : Request) (env : Env) (c : String)
    (hval : validateMsg req = none) (hcon : req.content = some c)
    (hw : env.writeOk = true)
    (h3 : env.remoteMd5
      (destAfterSlash (req.dest.getD "") env.mkstempName) = "3") :
    runCore r tmp module_args req env =
      ⟨[.mkstemp env.mkstempName,
        .probe (destAfterSlash (req.dest.getD "") env.mkstempName),
        .removeTemp env.mkstempName],
       .result { failed := true
                 msg := some "can not use content with a dir as dest" }
         none⟩ := by
  obtain ⟨hsrc, hfaf⟩ := validate_content req c hval hcon
  have hres : resolveSource req env =
      .ok [.mkstemp env.mkstempName] env.mkstempName
        (some env.mkstempName) := by
    simp [resolveSource, hfaf, hcon, hw]
  simp [runCore, hval, hres, localMd5, hcon, h3]

/-- Witness for C6 at a concrete all-directories remote peer. -/
theorem content_dir_conflict_witness :
    wEnvDir.remoteMd5
      (destAfterSlash ((wReqContent.dest).getD "")
        wEnvDir.mkstempName) = "3" ∧
    runCore wRunner "/t/" "a" wReqContent wEnvDir =
      ⟨[.mkstemp wEnvDir.mkstempName,
        .probe (destAfterSlash ((wReqContent.dest).getD "")
          wEnvDir.mkstempName),
        .removeTemp wEnvDir.mkstempName],
       .result { failed := true
                 msg := some "can not use content with a dir as dest" }
         none⟩ :=
  ⟨rfl, content_dir_conflict wRunner "/t/" "a" wReqContent wEnvDir "hello"
    (by decide) rfl rfl rfl⟩

/-- Counterexample to C5 as stated: for an inline-content request whose
first probe reports the directory sentinel, the destination is not
re-derived and no second probe occurs — the run fails after exactly one
probe. -/
theorem dir_sentinel_reprobe_cx :
    wEnvDir.remoteMd5
      (destAfterSlash ((wReqContent.dest).getD "")
        wEnvDir.mkstempName) = "3" ∧
    (runCore wRunner "/t/" "a" wReqContent wEnvDir).events.countP isProbe
      = 1 :=
  ⟨rfl, by decide⟩

/-- C5 (amended): for every request without inline content whose first probe
reports the directory sentinel, the destination is re-derived as
`dest/basename(source)`, the probe runs exactly once more on that path (two
probes in total, never a third), and the rest of the run is `afterProbe`
fed with the second probe's result — so change detection uses the second
probe. -/
theorem dir_sentinel_reprobe (r : Runner) (tmp module_args : String)
    (req : Request) (env : Env) (evs : List Event) (source : String)
    (temp : Option String) (lmd5 : String)
    (hval : validateMsg req = none)
    (hres : resolveSource req env = .ok evs source temp)
    (hmd5 : localMd5 env source temp req.content = some lmd5)
    (hcon : req.content = none)
    (h3 : env.remoteMd5 (destAfterSlash (req.dest.getD "") source) = "3") :
    (runCore r tmp module_args req env).events.countP isProbe = 2 ∧
    runCore r tmp module_args req env =
      afterProbe r tmp module_args req env evs source lmd5
        (pathJoin (destAfterSlash (req.dest.getD "") source)
          (basename source))
        [.probe (destAfterSlash (req.dest.getD "") source),
         .probe (pathJoin (destAfterSlash (req.dest.getD "") source)
           (basename source))]
        (env.remoteMd5 (pathJoin (destAfterSlash (req.dest.getD "") source)
          (basename source))) := by
  have hsh := resolveSource_ok_shape req env evs source temp hval hres
  obtain ⟨-, hevs⟩ := hsh.2 hcon
  rw [hcon] at hmd5
  have hrun : runCore r tmp module_args req env =
      afterProbe r tmp module_args req env evs source lmd5
        (pathJoin (destAfterSlash (req.dest.getD "") source)
          (basename source))
        [.probe (destAfterSlash (req.dest.getD "") source),
         .probe (pathJoin (destAfterSlash (req.dest.getD "") source)
           (basename source))]
        (env.remoteMd5 (pathJoin (destAfterSlash (req.dest.getD "") source)
          (basename source))) := by
    simp [runCore, hval, hres, hmd5, h3, hcon]
  refine ⟨?_, hrun⟩
  rw [hrun, afterProbe_probe_count]
  simp [hevs, List.countP_cons, isProbe]

/-- Witness for C5 (amended): a plain-`src` request against a peer whose
first probe answers the sentinel probes exactly twice. -/
theorem dir_sentinel_reprobe_witness :
    wEnvDirOnce.remoteMd5
      (destAfterSlash ((wReq.dest).getD "") "/files/f.txt") = "3" ∧
    (runCore wRunner "/t/" "a" wReq wEnvDirOnce).events.countP isProbe
      = 2 :=
  ⟨by decide,
    (dir_sentinel_reprobe wRunner "/t/" "a" wReq wEnvDirOnce []
      "/files/f.txt" none "d41d8c" (by decide) (by decide) (by decide) rfl
      (by decide)).1⟩

/-- Counterexample to C2 as stated: a request with equal local and remote
checksums whose delegated attribute-reconciliation step reports an attribute
change — the operation's result then has `changed=true`, not
`changed=false`. -/
theorem equal_md5_changed_cx :
    (localMd5 wEnv "/files/f.txt" none wReq.content = some "d41d8c" ∧
     wEnv.remoteMd5
       (destAfterSlash ((wReq.dest).getD "") "/files/f.txt") = "d41d8c") ∧
    (runCore wRunner "/t/" "a" wReq wEnv).outcome =
      .result { failed := false, changed := true, msg := none } none :=
  ⟨⟨by decide, rfl⟩, by decide⟩

/-- C2 (amended): when the local checksum equals the effective remote
checksum (the first probe's digest, or the second probe's when the first
reported the directory sentinel), the transfer interface (`put_file`) and
the permission fixup are never invoked; the only module delegation is the
attribute-reconciliation `file` call, and the operation's result is that
delegation's result passed through (so `changed` reflects attribute
reconciliation, not content transfer).  (The content-with-directory
conflict, which fails before any checksum comparison, is excluded.) -/
theorem equal_md5_no_transfer (r : Runner) (tmp module_args : String)
    (req : Request) (env : Env) (evs : List Event) (source : String)
    (temp : Option String) (lmd5 : String)
    (hval : validateMsg req = none)
    (hres : resolveSource req env = .ok evs source temp)
    (hmd5 : localMd5 env source temp req.content = some lmd5)
    (heq : effectiveRemoteMd5 req env source = lmd5)
    (hnc : ¬(env.remoteMd5 (destAfterSlash (req.dest.getD "") source) = "3"
      ∧ req.content.isSome = true)) :
    (runCore r tmp module_args req env).events.countP isPutFile = 0 ∧
    (runCore r tmp module_args req env).events.countP isChmod = 0 ∧
    (runCore r tmp module_args req env).events.filter isDelegation =
      [.execMod "file" (fileModuleArgs r tmp module_args source) false] ∧
    (runCore r tmp module_args req env).outcome =
      .result (env.applyModule "file"
        (fileModuleArgs r tmp module_args source)) none := by
  have hsh := resolveSource_ok_shape req env evs source temp hval hres
  by_cases h3 : env.remoteMd5 (destAfterSlash (req.dest.getD "") source)
      = "3"
  · -- directory sentinel: the second probe's digest equals the local md5
    rcases hcon : req.content with _ | c
    swap
    · exact absurd ⟨h3, by simp [hcon]⟩ hnc
    obtain ⟨-, hevs⟩ := hsh.2 hcon
    rw [hcon] at hmd5
    have heq2 : lmd5 = env.remoteMd5
        (pathJoin (destAfterSlash (req.dest.getD "") source)
          (basename source)) := by
      simpa [effectiveRemoteMd5, h3, eq_comm] using heq
    have hrun : runCore r tmp module_args req env =
        afterProbe r tmp module_args req env evs source lmd5
          (pathJoin (destAfterSlash (req.dest.getD "") source)
            (basename source))
          [.probe (destAfterSlash (req.dest.getD "") source),
           .probe (pathJoin (destAfterSlash (req.dest.getD "") source)
             (basename source))]
          (env.remoteMd5 (pathJoin (destAfterSlash (req.dest.getD "") source)
            (basename source))) := by
      simp [runCore, hval, hres, hmd5, h3, hcon]
    rw [hrun, afterProbe_equal r tmp module_args req env evs source lmd5 _ _
      _ heq2]
    simp [hevs, hcon, List.countP_append, List.countP_cons,
      List.filter_append, isPutFile, isChmod, isDelegation]
  · -- first probe already carries the digest
    have heq1 : lmd5 = env.remoteMd5
        (destAfterSlash (req.dest.getD "") source) := by
      simpa [effectiveRemoteMd5, h3, eq_comm] using heq
    have hrun : runCore r tmp module_args req env =
        afterProbe r tmp module_args req env evs source lmd5
          (destAfterSlash (req.dest.getD "") source)
          [.probe (destAfterSlash (req.dest.getD "") source)]
          (env.remoteMd5 (destAfterSlash (req.dest.getD "") source)) := by
      simp [runCore, hval, hres, hmd5, h3]
    rw [hrun, afterProbe_equal r tmp module_args req env evs source lmd5 _ _
      _ heq1]
    rcases hcon : req.content with _ | c
    · obtain ⟨-, hevs⟩ := hsh.2 hcon
      simp [hevs, hcon, List.countP_append, List.countP_cons,
        List.filter_append, isPutFile, isChmod, isDelegation]
    · obtain ⟨-, -, hevs⟩ := hsh.1 (by simp [hcon])
      simp [hevs, hcon, List.countP_append, List.countP_cons,
        List.filter_append, isPutFile, isChmod, isDelegation]

/-- Witness for C2 (amended) at a concrete equal-checksum request. -/
theorem equal_md5_no_transfer_witness :
    effectiveRemoteMd5 wReq wEnv "/files/f.txt" = "d41d8c" ∧
    ((runCore wRunner "/t/" "a" wReq wEnv).events.countP isPutFile = 0 ∧
     (runCore wRunner "/t/" "a" wReq wEnv).events.countP isChmod = 0 ∧
     (runCore wRunner "/t/" "a" wReq wEnv).events.filter isDelegation =
       [.execMod "file" (fileModuleArgs wRunner "/t/" "a" "/files/f.txt")
         false] ∧
     (runCore wRunner "/t/" "a" wReq wEnv).outcome =
       .result (wEnv.applyModule "file"
         (fileModuleArgs wRunner "/t/" "a" "/files/f.txt")) none) :=
  ⟨by decide, equal_md5_no_transfer wRunner "/t/" "a" wReq wEnv []
    "/files/f.txt" none "d41d8c" (by decide) (by decide) (by decide)
    (by decide) (by decide)⟩

/-- C3: When the local md5 differs from the (effective) remote md5 and check
mode is enabled, every run that ends in a `ReturnData` returns
`changed=true` with the diff attached, performs no mutating remote call
(no `put_file` staging, no `chmod` fixup, no module delegation), and the
ephemeral temp file is deleted exactly when it was created.  (The
content-with-directory-destination conflict, which fails before change
detection, is excluded.) -/
theorem check_mode_frame (r : Runner) (tmp module_args : String)
    (req : Request) (env : Env) (evs : List Event) (source : String)
    (temp : Option String) (lmd5 : String)
    (hval : validateMsg req = none)
    (hres : resolveSource req env = .ok evs source temp)
    (hmd5 : localMd5 env source temp req.content = some lmd5)
    (hck : r.check_mode = true)
    (hne : lmd5 ≠ effectiveRemoteMd5 req env source)
    (hnc : ¬(env.remoteMd5 (destAfterSlash (req.dest.getD "") source) = "3"
      ∧ req.content.isSome = true))
    (hexn : (runCore r tmp module_args req env).outcome.isExn = false) :
    (∃ dd, (runCore r tmp module_args req env).outcome =
      .result { changed := true } (some dd)) ∧
    (runCore r tmp module_args req env).events.countP isMutating = 0 ∧
    (runCore r tmp module_args req env).events.countP isRemoveTemp =
      (runCore r tmp module_args req env).events.countP isMkstemp := by
  have hsh := resolveSource_ok_shape req env evs source temp hval hres
  by_cases h3 : env.remoteMd5 (destAfterSlash (req.dest.getD "") source)
      = "3"
  · -- directory sentinel: inline content is excluded by `hnc`
    rcases hcon : req.content with _ | c
    swap
    · exact absurd ⟨h3, by simp [hcon]⟩ hnc
    obtain ⟨-, hevs⟩ := hsh.2 hcon
    rw [hcon] at hmd5
    have hrun : runCore r tmp module_args req env =
        afterProbe r tmp module_args req env evs source lmd5
          (pathJoin (destAfterSlash (req.dest.getD "") source)
            (basename source))
          [.probe (destAfterSlash (req.dest.getD "") source),
           .probe (pathJoin (destAfterSlash (req.dest.getD "") source)
             (basename source))]
          (env.remoteMd5 (pathJoin (destAfterSlash (req.dest.getD "") source)
            (basename source))) := by
      simp [runCore, hval, hres, hmd5, h3, hcon]
    rw [hrun] at hexn ⊢
    have hne2 : lmd5 ≠ env.remoteMd5
        (pathJoin (destAfterSlash (req.dest.getD "") source)
          (basename source)) := by
      simpa [effectiveRemoteMd5, h3] using hne
    obtain ⟨dd, dEvs, hdEvs, hap⟩ := afterProbe_check r tmp module_args req
      env evs source lmd5 _ _ _ hne2 hck hexn
    rw [hap]
    have hmut : dEvs.countP isMutating = 0 :=
      countP_zero_of_all dEvs _ fun e he =>
        diffEvent_not_mutating e (hdEvs e he)
    have hrm : dEvs.countP isRemoveTemp = 0 :=
      countP_zero_of_all dEvs _ fun e he =>
        diffEvent_not_removeTemp e (hdEvs e he)
    have hmk : dEvs.countP isMkstemp = 0 :=
      countP_zero_of_all dEvs _ fun e he =>
        diffEvent_not_mkstemp e (hdEvs e he)
    refine ⟨⟨dd, rfl⟩, ?_, ?_⟩ <;>
      simp [hevs, hcon, hmut, hrm, hmk, List.countP_append, List.countP_cons,
        isMutating, isPutFile, isChmod, isDelegation, isRemoveTemp, isMkstemp]
  · -- single probe
    have hrun : runCore r tmp module_args req env =
        afterProbe r tmp module_args req env evs source lmd5
          (destAfterSlash (req.dest.getD "") source)
          [.probe (destAfterSlash (req.dest.getD "") source)]
          (env.remoteMd5 (destAfterSlash (req.dest.getD "") source)) := by
      simp [runCore, hval, hres, hmd5, h3]
    rw [hrun] at hexn ⊢
    have hne2 : lmd5 ≠ env.remoteMd5
        (destAfterSlash (req.dest.getD "") source) := by
      simpa [effectiveRemoteMd5, h3] using hne
    obtain ⟨dd, dEvs, hdEvs, hap⟩ := afterProbe_check r tmp module_args req
      env evs source lmd5 _ _ _ hne2 hck hexn
    rw [hap]
    have hmut : dEvs.countP isMutating = 0 :=
      countP_zero_of_all dEvs _ fun e he =>
        diffEvent_not_mutating e (hdEvs e he)
    have hrm : dEvs.countP isRemoveTemp = 0 :=
      countP_zero_of_all dEvs _ fun e he =>
        diffEvent_not_removeTemp e (hdEvs e he)
    have hmk : dEvs.countP isMkstemp = 0 :=
      countP_zero_of_all dEvs _ fun e he =>
        diffEvent_not_mkstemp e (hdEvs e he)
    rcases hcon : req.content with _ | c
    · obtain ⟨-, hevs⟩ := hsh.2 hcon
      refine ⟨⟨dd, rfl⟩, ?_, ?_⟩ <;>
        simp [hevs, hcon, hmut, hrm, hmk, List.countP_append,
          List.countP_cons, isMutating, isPutFile, isChmod, isDelegation,
          isRemoveTemp, isMkstemp]
    · obtain ⟨-, -, hevs⟩ := hsh.1 (by simp [hcon])
      refine ⟨⟨dd, rfl⟩, ?_, ?_⟩ <;>
        simp [hevs, hcon, hmut, hrm, hmk, List.countP_append,
          List.countP_cons, isMutating, isPutFile, isChmod, isDelegation,
          isRemoveTemp, isMkstemp]

/-- Witness for C3 at a concrete differing-checksum check-mode run. -/
theorem check_mode_frame_witness :
    wRunnerCheck.check_mode = true ∧
    ((runCore wRunnerCheck "/t/" "a" wReq wEnvDiffer).events.countP
        isMutating = 0 ∧
     (runCore wRunnerCheck "/t/" "a" wReq wEnvDiffer).events.countP
        isRemoveTemp =
      (runCore wRunnerCheck "/t/" "a" wReq wEnvDiffer).events.countP
        isMkstemp) :=
  ⟨rfl, (check_mode_frame wRunnerCheck "/t/" "a" wReq wEnvDiffer []
    "/files/f.txt" none "d41d8c" (by decide) (by decide) (by decide) rfl
    (by decide) (by decide) (by decide)).2⟩

end CopyPlugin
